import Mathlib

/-!
Verification development for the identifier-reset tool, a small C++ program
that rewrites three identifier fields of a JSON configuration file.  The
repository holds four source variants; the namespaces R1, R2, R3, R4 below
embed, in order, ctbpR.cpp, ctbpR-2.cpp, ctbpR-3.cpp and ctbpR-4.cpp.

Randomness (std::mt19937 seeded from std::random_device, and rand) is
modelled by an arbitrary stream of draws of type Nat → Nat; an application
of uniform_int_distribution(0,15) to a fresh draw is modelled as
draw % 16, uniform_int_distribution(8,11) as 8 + draw % 4, and rand % 256
as draw % 256.  Filesystem effects are modelled on a two-slot state (the
storage file and the file at the derived backup name for the single
timestamp of the run); directory creation and console text formatting are
abstracted away, while the error, warning, exit-status and
restore-from-backup behavior of each variant is tracked explicitly.
-/

/-- JSON values as held by nlohmann::json.  Numbers are collapsed to Int;
none of the programs inspects a numeric value. -/
inductive Json where
  | null
  | bool (b : Bool)
  | num (n : Int)
  | str (s : String)
  | arr (elems : List Json)
  | obj (fields : List (String × Json))

/-- A JSON object document: an association list from keys to values.
nlohmann::json objects have unique keys; their internal ordering is
abstracted away, the claims under study only look keys up. -/
abbrev Obj := List (String × Json)

/-- Key lookup in an object document. -/
def lookupKey : Obj → String → Option Json
  | [], _ => none
  | (k1, v) :: rest, k => if k1 = k then some v else lookupKey rest k

/-- Assignment doc[k] = v on an nlohmann object: replace the value when the
key is present, insert the binding otherwise. -/
def setKey : Obj → String → Json → Obj
  | [], k, v => [(k, v)]
  | (k1, v1) :: rest, k, v =>
      if k1 = k then (k, v) :: rest else (k1, v1) :: setKey rest k v

/-- doc.erase(k) on an nlohmann object. -/
def eraseKey : Obj → String → Obj
  | [], _ => []
  | (k1, v1) :: rest, k =>
      if k1 = k then eraseKey rest k else (k1, v1) :: eraseKey rest k

/-- The character a single value in 0..15 prints as on a std::hex stream
(lowercase): 48 is the code of the digit zero, 87 + 10 the code of the
letter a. -/
def hexChar (n : Nat) : Char :=
  if n < 10 then Char.ofNat (48 + n) else Char.ofNat (87 + n)

/-- Membership in the character class [0-9a-f]. -/
def isHexChar (c : Char) : Bool :=
  (decide (('0' : Char) ≤ c) && decide (c ≤ ('9' : Char)))
    || (decide (('a' : Char) ≤ c) && decide (c ≤ ('f' : Char)))

/-- Every character of the list is in [0-9a-f]. -/
def allHex (cs : List Char) : Bool := cs.all isHexChar

/-- The characters printed for a value in 0..255 by a std::hex stream with
no width/fill settings: one hex digit below 16, two otherwise. -/
def hexByte (v : Nat) : List Char :=
  if v < 16 then [hexChar v] else [hexChar (v / 16), hexChar (v % 16)]

/-- The regular expression of the spec for UUID v4 output,
8-4-4-4-12 lowercase hex with version nibble 4 and variant nibble in
8, 9, a, b, decided structurally on the 36 characters. -/
def matchesUuidV4 (s : String) : Bool :=
  match s.data with
  | a0 :: a1 :: a2 :: a3 :: a4 :: a5 :: a6 :: a7 :: h0 ::
    b0 :: b1 :: b2 :: b3 :: h1 ::
    v0 :: c0 :: c1 :: c2 :: h2 ::
    w0 :: w1 :: w2 :: w3 :: h3 ::
    e0 :: e1 :: e2 :: e3 :: e4 :: e5 :: e6 :: e7 :: e8 :: e9 :: e10 :: e11 :: [] =>
      allHex [a0, a1, a2, a3, a4, a5, a6, a7] && h0 == '-'
        && allHex [b0, b1, b2, b3] && h1 == '-'
        && v0 == '4' && allHex [c0, c1, c2] && h2 == '-'
        && (w0 == '8' || w0 == '9' || w0 == 'a' || w0 == 'b')
        && allHex [w1, w2, w3] && h3 == '-'
        && allHex [e0, e1, e2, e3, e4, e5, e6, e7, e8, e9, e10, e11]
  | _ => false

/-- The shape 8-4-4-4-12 of lowercase hex groups with no constraint on the
version and variant nibbles. -/
def matchesUuidShape (s : String) : Bool :=
  match s.data with
  | a0 :: a1 :: a2 :: a3 :: a4 :: a5 :: a6 :: a7 :: h0 ::
    b0 :: b1 :: b2 :: b3 :: h1 ::
    v0 :: c0 :: c1 :: c2 :: h2 ::
    w0 :: w1 :: w2 :: w3 :: h3 ::
    e0 :: e1 :: e2 :: e3 :: e4 :: e5 :: e6 :: e7 :: e8 :: e9 :: e10 :: e11 :: [] =>
      allHex [a0, a1, a2, a3, a4, a5, a6, a7] && h0 == '-'
        && allHex [b0, b1, b2, b3] && h1 == '-'
        && allHex [v0, c0, c1, c2] && h2 == '-'
        && allHex [w0, w1, w2, w3] && h3 == '-'
        && allHex [e0, e1, e2, e3, e4, e5, e6, e7, e8, e9, e10, e11]
  | _ => false

/-- Content of a file: either the pretty-printed serialization of a JSON
object document, or text that does not parse as a JSON object (used for a
corrupt prior file and for a partially-written file).  Valid JSON whose
root is not an object is outside the model; no claim depends on it. -/
inductive Content where
  | json (doc : Obj)
  | raw (text : String)

/-- The two filesystem locations one run touches: the storage file and the
file at the derived backup name, original path + ".backup_" + the
second-resolution timestamp of this run.  none means the file does not
exist.  Parent-directory creation is abstracted away. -/
structure FS where
  storage : Option Content
  backup : Option Content

/-- The compile-time platform selected by the preprocessor conditionals. -/
inductive OS where
  | windows
  | darwin
  | linux
  | other

/-- Result of a locator: a path, a thrown exception with its message, or
undefined behavior (constructing fs::path from a null char pointer). -/
inductive LocResult where
  | ok (path : String)
  | err (msg : String)
  | ub

/-- The error taxonomy at run level. cursorReset covers the exceptions the
tool throws itself (CursorResetError / std::runtime_error with the message
from the source); fsError is std::filesystem_error raised by a copy onto an
existing destination; parseError and typeError are the nlohmann::json
exceptions. -/
inductive RunError where
  | cursorReset (msg : String)
  | fsError
  | parseError
  | typeError

/-- Outcome of the final write: the open succeeds and the whole
serialization is written; the open fails (nothing written, is_open is
false); or the open succeeds, truncating the file, and a later stream
write fails, leaving the text written so far (no variant checks the stream
state after writing, so this case looks like success to the program). -/
inductive WriteOutcome where
  | ok
  | openFail
  | midFail (written : String)

/-- The nondeterministic inputs of one run: the random draw stream, whether
opening the storage file for reading succeeds, and the outcome of the
final write. -/
structure Oracle where
  draws : Nat → Nat
  readOpenOk : Bool
  writeOutcome : WriteOutcome

/-- Observable result of a run: the final filesystem state, the process
exit status, whether an error message went to standard error, whether the
corrupt-file warning was printed, whether the success message with the new
identifiers was printed, the error reported (if any), and whether the
restore-from-backup copy was executed. -/
structure RunResult where
  fs : FS
  exit : Nat
  errOut : Bool
  warned : Bool
  emittedIds : Bool
  err : Option RunError
  restored : Bool

/-- A run either hits undefined behavior or terminates with a result. -/
inductive RunOut where
  | ub
  | done (r : RunResult)

/-- An error path that reaches the process exit with status 1. -/
def fail1 (fs : FS) (e : RunError) : RunResult :=
  { fs := fs, exit := 1, errOut := true, warned := false, emittedIds := false,
    err := some e, restored := false }

/-- An error path whose exception is swallowed before main, so the process
still exits with status 0. -/
def fail0 (fs : FS) (e : RunError) : RunResult :=
  { fs := fs, exit := 0, errOut := true, warned := false, emittedIds := false,
    err := some e, restored := false }

/-- The success path: new identifiers printed, exit status 0. -/
def success (fs : FS) (warned : Bool) : RunResult :=
  { fs := fs, exit := 0, errOut := false, warned := warned, emittedIds := true,
    err := none, restored := false }

/-- fs::copy_file and fs::copy with default options: raise
filesystem_error when the destination exists, otherwise copy the content
byte for byte. -/
def copyNoClobber (src : Content) (dst : Option Content) : Except RunError Content :=
  match dst with
  | some _ => Except.error RunError.fsError
  | none => Except.ok src

/-- An environment in which only HOME is set, used to drive the Linux
branch of the locators in the run-level theorems. -/
def envHome (h : String) : String → Option String :=
  fun n => if n = "HOME" then some h else none

namespace R1

/-- ctbpR.cpp generateRandomHex (lines 22-32): the stream has
setfill of the zero digit, and each loop iteration prints one draw in
0..15 with setw(2), hence two characters, a padding zero followed by the
hex digit of the draw. -/
def generateRandomHex (length : Nat) (draws : Nat → Nat) : String :=
  ⟨(List.range length).flatMap (fun i => ['0', hexChar (draws i % 16)])⟩

/-- ctbpR.cpp generateUUID (lines 35-52): 8 hex draws, a hyphen, 4 hex
draws, the literal "-4", 3 hex draws, a hyphen, one draw from 8..11
printed on the still-hex stream, 3 hex draws, a hyphen, 12 hex draws.
Draw indices follow the call order in the source. -/
def generateUUID (draws : Nat → Nat) : String :=
  ⟨((List.range 8).map (fun i => hexChar (draws i % 16)))
    ++ '-' :: ((List.range 4).map (fun i => hexChar (draws (8 + i) % 16)))
    ++ '-' :: '4' :: ((List.range 3).map (fun i => hexChar (draws (12 + i) % 16)))
    ++ '-' :: hexChar (8 + draws 15 % 4)
      :: ((List.range 3).map (fun i => hexChar (draws (16 + i) % 16)))
    ++ '-' :: ((List.range 12).map (fun i => hexChar (draws (19 + i) % 16)))⟩

/-- ctbpR.cpp getStorageFile (lines 54-75).  getenv returning NULL flows
straight into the fs::path constructor, which is undefined behavior. -/
def getStorageFile (os : OS) (env : String → Option String) : LocResult :=
  match os with
  | OS.windows =>
      match env "APPDATA" with
      | some a => LocResult.ok (a ++ "/Cursor/User/globalStorage/storage.json")
      | none => LocResult.ub
  | OS.darwin =>
      match env "HOME" with
      | some h => LocResult.ok (h ++ "/Library/Application Support/Cursor/User/globalStorage/storage.json")
      | none => LocResult.ub
  | OS.linux =>
      match env "HOME" with
      | some h => LocResult.ok (h ++ "/.config/Cursor/User/globalStorage/storage.json")
      | none => LocResult.ub
  | OS.other => LocResult.err "Unsupported operating system"

/-- ctbpR.cpp backupFile (lines 77-89): no-op when the storage file does
not exist; otherwise fs::copy_file with default options to the derived
backup name (error if that name already exists).  The returned Bool
records whether a non-empty backup path was produced. -/
def backupFile (fs : FS) : Except RunError (FS × Bool) :=
  match fs.storage with
  | none => Except.ok (fs, false)
  | some c =>
      match copyNoClobber c fs.backup with
      | Except.error e => Except.error e
      | Except.ok c2 => Except.ok ({ fs with backup := some c2 }, true)

/-- ctbpR.cpp load step (lines 108-115): read only when the file exists
and opening it succeeded; a parse error propagates out of resetCursorId. -/
def loadDoc (storage : Option Content) (readOpenOk : Bool) : Except RunError Obj :=
  match storage with
  | none => Except.ok []
  | some c =>
      if readOpenOk then
        match c with
        | Content.json doc => Except.ok doc
        | Content.raw _ => Except.error RunError.parseError
      else Except.ok []

/-- ctbpR.cpp mutation step (lines 117-123), nested-object convention.
nlohmann operator[] turns a null value into an object and throws
type_error on any other non-object value (modelled as none). -/
def resetFields (doc : Obj) (mid mmid did : String) : Option Obj :=
  let doc1 := if (lookupKey doc "telemetry").isSome then doc
              else setKey doc "telemetry" (Json.obj [])
  let setTel := fun (tel : Obj) =>
    setKey (setKey (setKey tel "machineId" (Json.str mid))
      "macMachineId" (Json.str mmid)) "devDeviceId" (Json.str did)
  match lookupKey doc1 "telemetry" with
  | some (Json.obj tel) => some (setKey doc1 "telemetry" (Json.obj (setTel tel)))
  | some Json.null => some (setKey doc1 "telemetry" (Json.obj (setTel [])))
  | _ => none

/-- First fresh identifier of the run (generateNewIds): machineId. -/
def newHex1 (draws : Nat → Nat) : String := generateRandomHex 32 draws

/-- Second fresh identifier: macMachineId, on a later draw segment. -/
def newHex2 (draws : Nat → Nat) : String :=
  generateRandomHex 32 (fun i => draws (64 + i))

/-- Third fresh identifier: devDeviceId. -/
def newUuid (draws : Nat → Nat) : String :=
  generateUUID (fun i => draws (128 + i))

/-- The mutated document of a run as a function of the loaded document and
the draw stream (generateNewIds followed by lines 117-123). -/
def mutate (doc : Obj) (draws : Nat → Nat) : Option Obj :=
  resetFields doc (newHex1 draws) (newHex2 draws) (newUuid draws)

/-- ctbpR.cpp resetCursorId composed with main (lines 99-161): locate,
back up, load, mutate, write.  When the write open fails and a backup was
created, the code copies the backup over the storage path with default
copy options; since the storage file still exists on that path, the copy
itself raises filesystem_error, which supersedes the CursorResetError.
All exceptions are reported on standard error and main exits with 1. -/
def mainRun (os : OS) (env : String → Option String) (fs0 : FS) (o : Oracle) : RunOut :=
  match getStorageFile os env with
  | LocResult.ub => RunOut.ub
  | LocResult.err m => RunOut.done (fail1 fs0 (RunError.cursorReset m))
  | LocResult.ok _ =>
      match backupFile fs0 with
      | Except.error e => RunOut.done (fail1 fs0 e)
      | Except.ok (fs1, created) =>
          match loadDoc fs1.storage o.readOpenOk with
          | Except.error e => RunOut.done (fail1 fs1 e)
          | Except.ok doc =>
              match mutate doc o.draws with
              | none => RunOut.done (fail1 fs1 RunError.typeError)
              | some doc2 =>
                  match o.writeOutcome with
                  | WriteOutcome.ok =>
                      RunOut.done (success { fs1 with storage := some (Content.json doc2) } false)
                  | WriteOutcome.midFail s =>
                      RunOut.done (success { fs1 with storage := some (Content.raw s) } false)
                  | WriteOutcome.openFail =>
                      if created then
                        match fs1.backup with
                        | some b =>
                            match copyNoClobber b fs1.storage with
                            | Except.error e => RunOut.done (fail1 fs1 e)
                            | Except.ok c2 =>
                                RunOut.done { fail1 { fs1 with storage := some c2 }
                                  (RunError.cursorReset "Failed to write storage file") with
                                    restored := true }
                        | none =>
                            RunOut.done (fail1 fs1 (RunError.cursorReset "Failed to write storage file"))
                      else
                        RunOut.done (fail1 fs1 (RunError.cursorReset "Failed to write storage file"))

end R1

namespace R2

/-- ctbpR-2.cpp generate_random_hex (lines 60-66): each loop iteration
prints rand() % 256 on a hex stream with no width setting, contributing
one character for values below 16 and two otherwise. -/
def generate_random_hex (length : Nat) (draws : Nat → Nat) : String :=
  ⟨(List.range length).flatMap (fun i => hexByte (draws i % 256))⟩

/-- Modelled from the spec: ctbpR-2.cpp delegates UUID generation to the
external libuuid library (uuid_generate_random and uuid_unparse, lines
69-75), whose code is not part of this repository; per the spec it yields
a canonical hyphenated UUID v4 string whose version nibble is 4 and whose
variant nibble lies in 8, 9, a, b. -/
def generate_uuid (draws : Nat → Nat) : String :=
  ⟨((List.range 8).map (fun i => hexChar (draws i % 16)))
    ++ '-' :: ((List.range 4).map (fun i => hexChar (draws (8 + i) % 16)))
    ++ '-' :: '4' :: ((List.range 3).map (fun i => hexChar (draws (12 + i) % 16)))
    ++ '-' :: hexChar (8 + draws 15 % 4)
      :: ((List.range 3).map (fun i => hexChar (draws (16 + i) % 16)))
    ++ '-' :: ((List.range 12).map (fun i => hexChar (draws (19 + i) % 16)))⟩

/-- ctbpR-2.cpp get_storage_file (lines 32-57).  On Windows a missing
APPDATA falls through every branch and returns the empty fs::path; on the
other Unix branches getenv returning NULL flows into fs::path, which is
undefined behavior. -/
def get_storage_file (os : OS) (env : String → Option String) : LocResult :=
  match os with
  | OS.windows =>
      match env "APPDATA" with
      | some a => LocResult.ok (a ++ "/Cursor/User/globalStorage/storage.json")
      | none => LocResult.ok ""
  | OS.darwin =>
      match env "HOME" with
      | some h => LocResult.ok (h ++ "/Library/Application Support/Cursor/User/globalStorage/storage.json")
      | none => LocResult.ub
  | OS.linux =>
      match env "HOME" with
      | some h => LocResult.ok (h ++ "/.config/Cursor/User/globalStorage/storage.json")
      | none => LocResult.ub
  | OS.other => LocResult.err "Unsupported operating system: Unknown"

/-- ctbpR-2.cpp backup_file (lines 18-29): fs::copy_file with
overwrite_if_exists, so an existing backup at the derived name is
replaced silently.  The Bool records whether a backup path was returned. -/
def backup_file (fs : FS) : FS × Bool :=
  match fs.storage with
  | some c => ({ fs with backup := some c }, true)
  | none => (fs, false)

/-- ctbpR-2.cpp load step (lines 86-93): the stream is read without an
is_open check; on an unopened stream nlohmann sees an empty input and
raises parse_error, exactly as for corrupt text.  When the file does not
exist nothing is read and the json value declared at line 86 stays null,
modelled as none (distinct from an empty object). -/
def loadDoc (storage : Option Content) (readOpenOk : Bool) : Except RunError (Option Obj) :=
  match storage with
  | none => Except.ok none
  | some c =>
      if readOpenOk then
        match c with
        | Content.json doc => Except.ok (some doc)
        | Content.raw _ => Except.error RunError.parseError
      else Except.error RunError.parseError

/-- nlohmann basic_json::value(key, default) on an object document, as
called at ctbpR-2.cpp lines 102-104: the default when the key is absent,
the stored string when it is present, and type_error (302) when the stored
value is not a string.  The type_error (306) thrown when the document
itself is not an object is handled at the call site in mainRun, where the
null document of a missing-file run reaches these calls. -/
def value (doc : Obj) (k dft : String) : Except RunError String :=
  match lookupKey doc k with
  | none => Except.ok dft
  | some (Json.str s) => Except.ok s
  | some _ => Except.error RunError.typeError

/-- ctbpR-2.cpp lines 101-105: the map of the original identifier values,
built with three data.value calls before the new identifiers are
assigned. -/
def originalIds (doc : Obj) : Except RunError (String × String × String) :=
  match value doc "telemetry.machineId" "Not set" with
  | Except.error e => Except.error e
  | Except.ok v1 =>
      match value doc "telemetry.macMachineId" "Not set" with
      | Except.error e => Except.error e
      | Except.ok v2 =>
          match value doc "telemetry.devDeviceId" "Not set" with
          | Except.error e => Except.error e
          | Except.ok v3 => Except.ok (v1, v2, v3)

/-- ctbpR-2.cpp mutation step (lines 107-115): assign the three dotted
identifier keys, then erase the three cursor trial keys. -/
def resetFields (doc : Obj) (mid mmid did : String) : Obj :=
  eraseKey (eraseKey (eraseKey
    (setKey (setKey (setKey doc "telemetry.machineId" (Json.str mid))
      "telemetry.macMachineId" (Json.str mmid)) "telemetry.devDeviceId" (Json.str did))
    "cursor.trialStartDate") "cursor.trialReminderShown") "cursor.trialExpired"

/-- First fresh identifier of the run: machineId. -/
def newHex1 (draws : Nat → Nat) : String := generate_random_hex 32 draws

/-- Second fresh identifier: macMachineId, on a later draw segment. -/
def newHex2 (draws : Nat → Nat) : String :=
  generate_random_hex 32 (fun i => draws (64 + i))

/-- Third fresh identifier: devDeviceId. -/
def newUuid (draws : Nat → Nat) : String :=
  generate_uuid (fun i => draws (128 + i))

/-- The document written on a successful run. -/
def newDoc (doc : Obj) (draws : Nat → Nat) : Obj :=
  resetFields doc (newHex1 draws) (newHex2 draws) (newUuid draws)

/-- ctbpR-2.cpp reset_cursor_id composed with main (lines 78-145): every
exception is caught inside reset_cursor_id, reported on standard error and
swallowed, so main always returns 0.  On a missing-file run the document
is still null when lines 102-104 call data.value, which throws
type_error (306) on a non-object, so the run aborts before any assignment
and nothing is written.  The final write is never checked. -/
def mainRun (os : OS) (env : String → Option String) (fs0 : FS) (o : Oracle) : RunOut :=
  match get_storage_file os env with
  | LocResult.ub => RunOut.ub
  | LocResult.err m => RunOut.done (fail0 fs0 (RunError.cursorReset m))
  | LocResult.ok _ =>
      match loadDoc (backup_file fs0).1.storage o.readOpenOk with
      | Except.error e => RunOut.done (fail0 (backup_file fs0).1 e)
      | Except.ok none =>
          RunOut.done (fail0 (backup_file fs0).1 RunError.typeError)
      | Except.ok (some doc) =>
          match originalIds doc with
          | Except.error e => RunOut.done (fail0 (backup_file fs0).1 e)
          | Except.ok _ =>
              match o.writeOutcome with
              | WriteOutcome.ok =>
                  RunOut.done (success { (backup_file fs0).1 with
                    storage := some (Content.json (newDoc doc o.draws)) } false)
              | WriteOutcome.openFail => RunOut.done (success (backup_file fs0).1 false)
              | WriteOutcome.midFail s =>
                  RunOut.done (success { (backup_file fs0).1 with
                    storage := some (Content.raw s) } false)

end R2

namespace R3

/-- ctbpR-3.cpp generateRandomHex (lines 12-21): one hex character per
draw in 0..15, no width setting. -/
def generateRandomHex (length : Nat) (draws : Nat → Nat) : String :=
  ⟨(List.range length).map (fun i => hexChar (draws i % 16))⟩

/-- ctbpR-3.cpp generateUUID (lines 23-37): five groups of 8, 4, 4, 4 and
12 random hex digits separated by hyphens; no nibble is fixed. -/
def generateUUID (draws : Nat → Nat) : String :=
  ⟨((List.range 8).map (fun i => hexChar (draws i % 16)))
    ++ '-' :: ((List.range 4).map (fun i => hexChar (draws (8 + i) % 16)))
    ++ '-' :: ((List.range 4).map (fun i => hexChar (draws (12 + i) % 16)))
    ++ '-' :: ((List.range 4).map (fun i => hexChar (draws (16 + i) % 16)))
    ++ '-' :: ((List.range 12).map (fun i => hexChar (draws (20 + i) % 16)))⟩

/-- ctbpR-3.cpp getStorageFile (lines 39-51): the Windows branch checks
APPDATA and throws on failure; the Unix branches pass getenv straight to
fs::path (undefined behavior when HOME is unset). -/
def getStorageFile (os : OS) (env : String → Option String) : LocResult :=
  match os with
  | OS.windows =>
      match env "APPDATA" with
      | some a => LocResult.ok (a ++ "/Cursor/User/globalStorage/storage.json")
      | none => LocResult.err "Failed to get APPDATA path."
  | OS.darwin =>
      match env "HOME" with
      | some h => LocResult.ok (h ++ "/Library/Application Support/Cursor/User/globalStorage/storage.json")
      | none => LocResult.ub
  | OS.linux =>
      match env "HOME" with
      | some h => LocResult.ok (h ++ "/.config/Cursor/User/globalStorage/storage.json")
      | none => LocResult.ub
  | OS.other => LocResult.err "Unsupported operating system"

/-- ctbpR-3.cpp backupFile (lines 53-61): fs::copy with default options to
the derived backup name; copying onto an existing file raises
filesystem_error. -/
def backupFile (fs : FS) : Except RunError FS :=
  match fs.storage with
  | none => Except.ok fs
  | some c =>
      match copyNoClobber c fs.backup with
      | Except.error e => Except.error e
      | Except.ok c2 => Except.ok { fs with backup := some c2 }

/-- ctbpR-3.cpp load step (lines 69-80): read only when the stream opened;
a parse error is caught locally, a warning is printed and the document is
replaced by an empty object.  Returns the document and whether the warning
was printed. -/
def loadDoc (storage : Option Content) (readOpenOk : Bool) : Obj × Bool :=
  match storage with
  | none => ([], false)
  | some c =>
      if readOpenOk then
        match c with
        | Content.json doc => (doc, false)
        | Content.raw _ => ([], true)
      else ([], false)

/-- ctbpR-3.cpp mutation step (lines 82-84): assign the three dotted
identifier keys. -/
def resetFields (doc : Obj) (mid mmid did : String) : Obj :=
  setKey (setKey (setKey doc "telemetry.machineId" (Json.str mid))
    "telemetry.macMachineId" (Json.str mmid)) "telemetry.devDeviceId" (Json.str did)

/-- First fresh identifier of the run: machineId. -/
def newHex1 (draws : Nat → Nat) : String := generateRandomHex 32 draws

/-- Second fresh identifier: macMachineId, on a later draw segment. -/
def newHex2 (draws : Nat → Nat) : String :=
  generateRandomHex 32 (fun i => draws (64 + i))

/-- Third fresh identifier: devDeviceId. -/
def newUuid (draws : Nat → Nat) : String :=
  generateUUID (fun i => draws (128 + i))

/-- The document written on a successful run. -/
def newDoc (doc : Obj) (draws : Nat → Nat) : Obj :=
  resetFields doc (newHex1 draws) (newHex2 draws) (newUuid draws)

/-- ctbpR-3.cpp resetCursorID composed with main (lines 63-99): every
exception is caught inside resetCursorID, reported on standard error and
swallowed, so main always returns 0.  The final write is never checked. -/
def mainRun (os : OS) (env : String → Option String) (fs0 : FS) (o : Oracle) : RunOut :=
  match getStorageFile os env with
  | LocResult.ub => RunOut.ub
  | LocResult.err m => RunOut.done (fail0 fs0 (RunError.cursorReset m))
  | LocResult.ok _ =>
      match backupFile fs0 with
      | Except.error e => RunOut.done (fail0 fs0 e)
      | Except.ok fs1 =>
          match o.writeOutcome with
          | WriteOutcome.ok =>
              RunOut.done (success { fs1 with
                storage := some (Content.json
                  (newDoc (loadDoc fs1.storage o.readOpenOk).1 o.draws)) }
                (loadDoc fs1.storage o.readOpenOk).2)
          | WriteOutcome.openFail =>
              RunOut.done (success fs1 (loadDoc fs1.storage o.readOpenOk).2)
          | WriteOutcome.midFail s =>
              RunOut.done (success { fs1 with storage := some (Content.raw s) }
                (loadDoc fs1.storage o.readOpenOk).2)

end R3

namespace R4

/-- ctbpR-4.cpp generate_random_hex (lines 28-38): one hex character per
draw in 0..15, no width setting. -/
def generate_random_hex (length : Nat) (draws : Nat → Nat) : String :=
  ⟨(List.range length).map (fun i => hexChar (draws i % 16))⟩

/-- ctbpR-4.cpp generate_uuid (lines 41-76): same structure as the
ctbpR.cpp generator; the version nibble is the literal 4 and the variant
draw from 8..11 is printed on the still-hex stream. -/
def generate_uuid (draws : Nat → Nat) : String :=
  ⟨((List.range 8).map (fun i => hexChar (draws i % 16)))
    ++ '-' :: ((List.range 4).map (fun i => hexChar (draws (8 + i) % 16)))
    ++ '-' :: '4' :: ((List.range 3).map (fun i => hexChar (draws (12 + i) % 16)))
    ++ '-' :: hexChar (8 + draws 15 % 4)
      :: ((List.range 3).map (fun i => hexChar (draws (16 + i) % 16)))
    ++ '-' :: ((List.range 12).map (fun i => hexChar (draws (19 + i) % 16)))⟩

/-- ctbpR-4.cpp get_storage_file (lines 99-125): every branch checks the
environment variable and leaves the default-constructed empty path when it
is unset, so the function never fails on a supported platform. -/
def get_storage_file (os : OS) (env : String → Option String) : LocResult :=
  match os with
  | OS.windows =>
      match env "APPDATA" with
      | some a => LocResult.ok (a ++ "/Cursor/User/globalStorage/storage.json")
      | none => LocResult.ok ""
  | OS.darwin =>
      match env "HOME" with
      | some h => LocResult.ok (h ++ "/Library/Application Support/Cursor/User/globalStorage/storage.json")
      | none => LocResult.ok ""
  | OS.linux =>
      match env "HOME" with
      | some h => LocResult.ok (h ++ "/.config/Cursor/User/globalStorage/storage.json")
      | none => LocResult.ok ""
  | OS.other => LocResult.err "Unsupported operating system"

/-- ctbpR-4.cpp backup_file (lines 79-96): fs::copy_file with
overwrite_existing, so an existing backup at the derived name is replaced
silently. -/
def backup_file (fs : FS) : FS :=
  match fs.storage with
  | some c => { fs with backup := some c }
  | none => fs

/-- ctbpR-4.cpp load step (lines 137-144): read only when the file exists
and opening it succeeded; a parse error propagates to main. -/
def loadDoc (storage : Option Content) (readOpenOk : Bool) : Except RunError Obj :=
  match storage with
  | none => Except.ok []
  | some c =>
      if readOpenOk then
        match c with
        | Content.json doc => Except.ok doc
        | Content.raw _ => Except.error RunError.parseError
      else Except.ok []

/-- ctbpR-4.cpp mutation step (lines 152-154): assign the three dotted
identifier keys. -/
def resetFields (doc : Obj) (mid mmid did : String) : Obj :=
  setKey (setKey (setKey doc "telemetry.machineId" (Json.str mid))
    "telemetry.macMachineId" (Json.str mmid)) "telemetry.devDeviceId" (Json.str did)

/-- First fresh identifier of the run: machineId, 64 hex characters. -/
def newHex1 (draws : Nat → Nat) : String := generate_random_hex 64 draws

/-- Second fresh identifier: macMachineId, on a later draw segment. -/
def newHex2 (draws : Nat → Nat) : String :=
  generate_random_hex 64 (fun i => draws (80 + i))

/-- Third fresh identifier: devDeviceId. -/
def newUuid (draws : Nat → Nat) : String :=
  generate_uuid (fun i => draws (160 + i))

/-- The document written on a successful run. -/
def newDoc (doc : Obj) (draws : Nat → Nat) : Obj :=
  resetFields doc (newHex1 draws) (newHex2 draws) (newUuid draws)

/-- ctbpR-4.cpp reset_cursor_id composed with main (lines 127-184): a
failed write open throws a runtime_error with no restore attempt; main
catches, reports on standard error and returns 1.  A stream failure after
a successful open is undetected. -/
def mainRun (os : OS) (env : String → Option String) (fs0 : FS) (o : Oracle) : RunOut :=
  match get_storage_file os env with
  | LocResult.ub => RunOut.ub
  | LocResult.err m => RunOut.done (fail1 fs0 (RunError.cursorReset m))
  | LocResult.ok _ =>
      match loadDoc (backup_file fs0).storage o.readOpenOk with
      | Except.error e => RunOut.done (fail1 (backup_file fs0) e)
      | Except.ok doc =>
          match o.writeOutcome with
          | WriteOutcome.ok =>
              RunOut.done (success { backup_file fs0 with
                storage := some (Content.json (newDoc doc o.draws)) } false)
          | WriteOutcome.openFail =>
              RunOut.done (fail1 (backup_file fs0)
                (RunError.cursorReset "Failed to open storage file for writing"))
          | WriteOutcome.midFail s =>
              RunOut.done (success { backup_file fs0 with
                storage := some (Content.raw s) } false)

end R4

/-! Helper lemmas about the document operations. -/

theorem lookupKey_setKey_self (o : Obj) (k : String) (v : Json) :
    lookupKey (setKey o k v) k = some v := by
  induction o with
  | nil => simp [setKey, lookupKey]
  | cons p rest ih =>
      obtain ⟨k1, v1⟩ := p
      by_cases h : k1 = k
      · simp [setKey, h, lookupKey]
      · simp [setKey, h, lookupKey, ih]

theorem lookupKey_setKey_ne (o : Obj) (k k1 : String) (v : Json) (h : k1 ≠ k) :
    lookupKey (setKey o k v) k1 = lookupKey o k1 := by
  induction o with
  | nil => simp [setKey, lookupKey, Ne.symm h]
  | cons p rest ih =>
      obtain ⟨k2, v2⟩ := p
      by_cases h2 : k2 = k
      · subst h2
        simp [setKey, lookupKey, Ne.symm h]
      · simp [setKey, h2, lookupKey, ih]

theorem lookupKey_eraseKey_self (o : Obj) (k : String) :
    lookupKey (eraseKey o k) k = none := by
  induction o with
  | nil => simp [eraseKey, lookupKey]
  | cons p rest ih =>
      obtain ⟨k1, v1⟩ := p
      by_cases h : k1 = k
      · simp [eraseKey, h, ih]
      · simp [eraseKey, h, lookupKey, ih]

theorem lookupKey_eraseKey_ne (o : Obj) (k k1 : String) (h : k1 ≠ k) :
    lookupKey (eraseKey o k) k1 = lookupKey o k1 := by
  induction o with
  | nil => simp [eraseKey]
  | cons p rest ih =>
      obtain ⟨k2, v2⟩ := p
      by_cases h2 : k2 = k
      · subst h2
        simp [eraseKey, lookupKey, Ne.symm h, ih]
      · simp [eraseKey, h2, lookupKey, ih]

/-! Helper lemmas about hex characters and generator output shapes. -/

theorem isHexChar_hexChar (n : Nat) (h : n < 16) : isHexChar (hexChar n) = true := by
  interval_cases n <;> decide

theorem isHexChar_hexChar_mod (k : Nat) : isHexChar (hexChar (k % 16)) = true :=
  isHexChar_hexChar _ (Nat.mod_lt _ (by decide))

theorem variantChar_mem (k : Nat) :
    (hexChar (8 + k % 4) == '8' || hexChar (8 + k % 4) == '9'
      || hexChar (8 + k % 4) == 'a' || hexChar (8 + k % 4) == 'b') = true := by
  have h : k % 4 < 4 := Nat.mod_lt _ (by decide)
  revert h
  generalize k % 4 = m
  intro h
  interval_cases m <;> decide

theorem isHexChar_variantChar (k : Nat) : isHexChar (hexChar (8 + k % 4)) = true := by
  have h : k % 4 < 4 := Nat.mod_lt _ (by decide)
  revert h
  generalize k % 4 = m
  intro h
  interval_cases m <;> decide

theorem allHex_append (a b : List Char) : allHex (a ++ b) = (allHex a && allHex b) := by
  simp [allHex, List.all_append]

theorem allHex_map_range (n : Nat) (d : Nat → Nat) :
    allHex ((List.range n).map (fun i => hexChar (d i % 16))) = true := by
  simp only [allHex, List.all_eq_true]
  intro c hc
  simp only [List.mem_map] at hc
  obtain ⟨i, _, rfl⟩ := hc
  exact isHexChar_hexChar_mod _

theorem length_flatMap_pad (L : Nat) (d : Nat → Nat) :
    ((List.range L).flatMap (fun i => ['0', hexChar (d i % 16)])).length = 2 * L := by
  induction L with
  | zero => rfl
  | succ n ih =>
      rw [List.range_succ, List.flatMap_append, List.length_append, ih]
      simp [Nat.mul_succ]

theorem allHex_flatMap_pad (L : Nat) (d : Nat → Nat) :
    allHex ((List.range L).flatMap (fun i => ['0', hexChar (d i % 16)])) = true := by
  induction L with
  | zero => rfl
  | succ n ih =>
      rw [List.range_succ, List.flatMap_append, allHex_append, ih]
      simp [allHex, isHexChar_hexChar_mod]
      decide

theorem hexByte_length_le (v : Nat) : (hexByte v).length ≤ 2 := by
  unfold hexByte
  split <;> simp

theorem hexByte_length_ge (v : Nat) : 1 ≤ (hexByte v).length := by
  unfold hexByte
  split <;> simp

theorem allHex_hexByte (v : Nat) (h : v < 256) : allHex (hexByte v) = true := by
  unfold hexByte
  split
  · next hv => simp [allHex, isHexChar_hexChar _ hv]
  · next hv =>
      have h1 : v / 16 < 16 := by omega
      simp [allHex, isHexChar_hexChar _ h1, isHexChar_hexChar_mod]

theorem length_flatMap_hexByte_le (L : Nat) (d : Nat → Nat) :
    ((List.range L).flatMap (fun i => hexByte (d i % 256))).length ≤ 2 * L := by
  induction L with
  | zero => simp
  | succ n ih =>
      rw [List.range_succ, List.flatMap_append, List.length_append]
      have h2 : (hexByte (d n % 256)).length ≤ 2 := hexByte_length_le _
      simp only [List.flatMap_cons, List.flatMap_nil, List.append_nil]
      omega

theorem length_flatMap_hexByte_ge (L : Nat) (d : Nat → Nat) :
    L ≤ ((List.range L).flatMap (fun i => hexByte (d i % 256))).length := by
  induction L with
  | zero => simp
  | succ n ih =>
      rw [List.range_succ, List.flatMap_append, List.length_append]
      have h2 : 1 ≤ (hexByte (d n % 256)).length := hexByte_length_ge _
      simp only [List.flatMap_cons, List.flatMap_nil, List.append_nil]
      omega

theorem allHex_flatMap_hexByte (L : Nat) (d : Nat → Nat) :
    allHex ((List.range L).flatMap (fun i => hexByte (d i % 256))) = true := by
  induction L with
  | zero => rfl
  | succ n ih =>
      rw [List.range_succ, List.flatMap_append, allHex_append, ih]
      simp only [List.flatMap_cons, List.flatMap_nil, List.append_nil, Bool.true_and]
      exact allHex_hexByte _ (Nat.mod_lt _ (by decide))

theorem matchesUuidV4_intro
    (a0 a1 a2 a3 a4 a5 a6 a7 b0 b1 b2 b3 c0 c1 c2 w0 w1 w2 w3
      e0 e1 e2 e3 e4 e5 e6 e7 e8 e9 e10 e11 : Char)
    (ha : allHex [a0, a1, a2, a3, a4, a5, a6, a7] = true)
    (hb : allHex [b0, b1, b2, b3] = true)
    (hc : allHex [c0, c1, c2] = true)
    (hw : (w0 == '8' || w0 == '9' || w0 == 'a' || w0 == 'b') = true)
    (hw3 : allHex [w1, w2, w3] = true)
    (he : allHex [e0, e1, e2, e3, e4, e5, e6, e7, e8, e9, e10, e11] = true) :
    matchesUuidV4 ⟨[a0, a1, a2, a3, a4, a5, a6, a7, '-',
      b0, b1, b2, b3, '-',
      '4', c0, c1, c2, '-',
      w0, w1, w2, w3, '-',
      e0, e1, e2, e3, e4, e5, e6, e7, e8, e9, e10, e11]⟩ = true := by
  simp [matchesUuidV4, ha, hb, hc, hw, hw3, he]

theorem matchesUuidShape_intro
    (a0 a1 a2 a3 a4 a5 a6 a7 b0 b1 b2 b3 v0 c0 c1 c2 w0 w1 w2 w3
      e0 e1 e2 e3 e4 e5 e6 e7 e8 e9 e10 e11 : Char)
    (ha : allHex [a0, a1, a2, a3, a4, a5, a6, a7] = true)
    (hb : allHex [b0, b1, b2, b3] = true)
    (hc : allHex [v0, c0, c1, c2] = true)
    (hw : allHex [w0, w1, w2, w3] = true)
    (he : allHex [e0, e1, e2, e3, e4, e5, e6, e7, e8, e9, e10, e11] = true) :
    matchesUuidShape ⟨[a0, a1, a2, a3, a4, a5, a6, a7, '-',
      b0, b1, b2, b3, '-',
      v0, c0, c1, c2, '-',
      w0, w1, w2, w3, '-',
      e0, e1, e2, e3, e4, e5, e6, e7, e8, e9, e10, e11]⟩ = true := by
  simp [matchesUuidShape, ha, hb, hc, hw, he]

/-! Claim C1: output of the random hex generators. -/

/-- C1 amended: for every length L and every draw stream, the generators of
ctbpR-3.cpp and ctbpR-4.cpp return a string of exactly L characters, all in
0-9a-f; the ctbpR.cpp generator returns exactly 2 * L characters (its
setw(2) prints a padding zero before every digit) and the ctbpR-2.cpp
generator returns between L and 2 * L characters (unpadded bytes), in both
cases again all in 0-9a-f. -/
theorem claim1_amended (L : Nat) (draws : Nat → Nat) :
    ((R3.generateRandomHex L draws).length = L
      ∧ allHex (R3.generateRandomHex L draws).data = true)
    ∧ ((R4.generate_random_hex L draws).length = L
      ∧ allHex (R4.generate_random_hex L draws).data = true)
    ∧ ((R1.generateRandomHex L draws).length = 2 * L
      ∧ allHex (R1.generateRandomHex L draws).data = true)
    ∧ (L ≤ (R2.generate_random_hex L draws).length
      ∧ (R2.generate_random_hex L draws).length ≤ 2 * L
      ∧ allHex (R2.generate_random_hex L draws).data = true) := by
  refine ⟨⟨?_, ?_⟩, ⟨?_, ?_⟩, ⟨?_, ?_⟩, ?_, ?_, ?_⟩
  · simp [R3.generateRandomHex, String.length]
  · exact allHex_map_range L draws
  · simp [R4.generate_random_hex, String.length]
  · exact allHex_map_range L draws
  · exact length_flatMap_pad L draws
  · exact allHex_flatMap_pad L draws
  · exact length_flatMap_hexByte_ge L draws
  · exact length_flatMap_hexByte_le L draws
  · exact allHex_flatMap_hexByte L draws

/-- C1 counterexample: at length 1 the ctbpR.cpp generator returns two
characters (here, with every draw 0, the string "00"), and the ctbpR-2.cpp
generator with a draw of value 255 returns the two characters "ff"; neither
has length 1, refuting the claim that the output length always equals the
requested length. -/
theorem claim1_cex :
    (R1.generateRandomHex 1 (fun _ => 0)).length ≠ 1
    ∧ R1.generateRandomHex 1 (fun _ => 0) = "00"
    ∧ (R2.generate_random_hex 1 (fun _ => 255)).length ≠ 1
    ∧ R2.generate_random_hex 1 (fun _ => 255) = "ff" := by
  refine ⟨?_, ?_, ?_, ?_⟩ <;> decide

/-- C1 witness: the amended theorem evaluated at length 4 with constant
draw 11. -/
theorem claim1_witness :
    (R3.generateRandomHex 4 (fun _ => 11)).length = 4
    ∧ (R1.generateRandomHex 4 (fun _ => 11)).length = 8 :=
  ⟨(claim1_amended 4 (fun _ => 11)).1.1, (claim1_amended 4 (fun _ => 11)).2.2.1.1⟩

/-! Claim C2: output of the UUID generators. -/

/-- C2 amended: the UUID generators of ctbpR.cpp and ctbpR-4.cpp always
match the canonical v4 pattern
8-4-4-4-12 lowercase hex with version nibble 4 and variant nibble in
8, 9, a, b; the ctbpR-3.cpp generator only guarantees the hyphenated
8-4-4-4-12 lowercase hex shape, with no constraint on the version and
variant nibbles. -/
theorem claim2_amended (d1 d2 d3 : Nat → Nat) :
    matchesUuidV4 (R1.generateUUID d1) = true
    ∧ matchesUuidV4 (R4.generate_uuid d2) = true
    ∧ matchesUuidShape (R3.generateUUID d3) = true := by
  refine ⟨?_, ?_, ?_⟩
  · apply matchesUuidV4_intro
    case hw => exact variantChar_mem _
    all_goals simp [allHex, isHexChar_hexChar_mod]
  · apply matchesUuidV4_intro
    case hw => exact variantChar_mem _
    all_goals simp [allHex, isHexChar_hexChar_mod]
  · apply matchesUuidShape_intro
    all_goals simp [allHex, isHexChar_hexChar_mod]

/-- C2 counterexample: with every draw equal to 0 the ctbpR-3.cpp generator
returns the all-zero UUID, whose version nibble is 0 and whose variant
nibble is 0, so its output does not match the required v4 pattern. -/
theorem claim2_cex :
    matchesUuidV4 (R3.generateUUID (fun _ => 0)) = false
    ∧ R3.generateUUID (fun _ => 0) = "00000000-0000-0000-0000-000000000000" := by
  constructor <;> decide

/-- C2 witness: the amended theorem evaluated at the constant draw
stream 5. -/
theorem claim2_witness :
    matchesUuidV4 (R1.generateUUID (fun _ => 5)) = true
    ∧ matchesUuidShape (R3.generateUUID (fun _ => 5)) = true :=
  ⟨(claim2_amended (fun _ => 5) (fun _ => 5) (fun _ => 5)).1,
   (claim2_amended (fun _ => 5) (fun _ => 5) (fun _ => 5)).2.2⟩

/-! Claim C3: frame property of the config mutators. -/

/-- C3 amended: the mutators of ctbpR-3.cpp and ctbpR-4.cpp change only the
three dotted identifier keys and preserve every other key; the ctbpR-2.cpp
mutator additionally erases the keys cursor.trialStartDate,
cursor.trialReminderShown and cursor.trialExpired (any such key present in
the input is absent from the output) and preserves all remaining keys; the
ctbpR.cpp mutator (nested convention) preserves every top-level key other
than telemetry, and inside an existing telemetry object every sub-key other
than machineId, macMachineId and devDeviceId. -/
theorem claim3_amended (doc : Obj) (m a d k : String)
    (h1 : k ≠ "telemetry.machineId")
    (h2 : k ≠ "telemetry.macMachineId")
    (h3 : k ≠ "telemetry.devDeviceId") :
    lookupKey (R3.resetFields doc m a d) k = lookupKey doc k
    ∧ lookupKey (R4.resetFields doc m a d) k = lookupKey doc k
    ∧ (k ≠ "cursor.trialStartDate" → k ≠ "cursor.trialReminderShown" →
        k ≠ "cursor.trialExpired" →
        lookupKey (R2.resetFields doc m a d) k = lookupKey doc k)
    ∧ (k = "cursor.trialStartDate" ∨ k = "cursor.trialReminderShown"
        ∨ k = "cursor.trialExpired" →
        lookupKey (R2.resetFields doc m a d) k = none)
    ∧ (∀ doc2, R1.resetFields doc m a d = some doc2 → k ≠ "telemetry" →
        lookupKey doc2 k = lookupKey doc k)
    ∧ (∀ doc2 tel tel2, R1.resetFields doc m a d = some doc2 →
        lookupKey doc "telemetry" = some (Json.obj tel) →
        lookupKey doc2 "telemetry" = some (Json.obj tel2) →
        ∀ sk, sk ≠ "machineId" → sk ≠ "macMachineId" → sk ≠ "devDeviceId" →
          lookupKey tel2 sk = lookupKey tel sk) := by
  refine ⟨?_, ?_, ?_, ?_, ?_, ?_⟩
  · unfold R3.resetFields
    rw [lookupKey_setKey_ne _ _ _ _ h3, lookupKey_setKey_ne _ _ _ _ h2,
      lookupKey_setKey_ne _ _ _ _ h1]
  · unfold R4.resetFields
    rw [lookupKey_setKey_ne _ _ _ _ h3, lookupKey_setKey_ne _ _ _ _ h2,
      lookupKey_setKey_ne _ _ _ _ h1]
  · intro hc1 hc2 hc3
    unfold R2.resetFields
    rw [lookupKey_eraseKey_ne _ _ _ hc3, lookupKey_eraseKey_ne _ _ _ hc2,
      lookupKey_eraseKey_ne _ _ _ hc1, lookupKey_setKey_ne _ _ _ _ h3,
      lookupKey_setKey_ne _ _ _ _ h2, lookupKey_setKey_ne _ _ _ _ h1]
  · rintro (rfl | rfl | rfl)
    · unfold R2.resetFields
      rw [lookupKey_eraseKey_ne _ _ _ (by decide), lookupKey_eraseKey_ne _ _ _ (by decide),
        lookupKey_eraseKey_self]
    · unfold R2.resetFields
      rw [lookupKey_eraseKey_ne _ _ _ (by decide), lookupKey_eraseKey_self]
    · unfold R2.resetFields
      rw [lookupKey_eraseKey_self]
  · intro doc2 hd hk
    unfold R1.resetFields at hd
    rcases htel : lookupKey doc "telemetry" with _ | v
    · simp only [htel, Option.isSome_none, Bool.false_eq_true, if_false,
        lookupKey_setKey_self] at hd
      cases hd
      rw [lookupKey_setKey_ne _ _ _ _ hk, lookupKey_setKey_ne _ _ _ _ hk]
    · cases v <;>
        simp only [htel, Option.isSome_some, if_true, reduceCtorEq,
          Option.some.injEq] at hd
      · cases hd
        rw [lookupKey_setKey_ne _ _ _ _ hk]
      · cases hd
        rw [lookupKey_setKey_ne _ _ _ _ hk]
  · intro doc2 tel tel2 hd htel htel2 sk hs1 hs2 hs3
    unfold R1.resetFields at hd
    simp only [htel, Option.isSome_some, if_true, Option.some.injEq] at hd
    cases hd
    rw [lookupKey_setKey_self] at htel2
    cases htel2
    rw [lookupKey_setKey_ne _ _ _ _ hs3, lookupKey_setKey_ne _ _ _ _ hs2,
      lookupKey_setKey_ne _ _ _ _ hs1]

/-- C3 counterexample: the ctbpR-2.cpp mutator erases the key
cursor.trialStartDate, so a document containing that key with a value
loses it: the key is present in the input and absent from the output,
refuting the claim that every non-identifier key is carried over
unchanged. -/
theorem claim3_cex :
    lookupKey [("cursor.trialStartDate", Json.str "2024-01-01")] "cursor.trialStartDate"
      = some (Json.str "2024-01-01")
    ∧ lookupKey (R2.resetFields [("cursor.trialStartDate", Json.str "2024-01-01")] "m" "a" "d")
        "cursor.trialStartDate" = none := by
  constructor <;> rfl

/-- C3 witness: the amended theorem evaluated on a one-key document and the
untargeted key app. -/
theorem claim3_witness :
    lookupKey (R3.resetFields [("app", Json.num 7)] "m" "a" "d") "app"
      = lookupKey [("app", Json.num 7)] "app" :=
  (claim3_amended [("app", Json.num 7)] "m" "a" "d" "app"
    (by decide) (by decide) (by decide)).1

/-! Claim C6: behavior of the backup step when the derived backup name is
already taken. -/

/-- C6 amended: when the storage file exists and a file with the derived
backup name already exists, the backup step of ctbpR.cpp and of
ctbpR-3.cpp fails with a filesystem error (default copy options never
overwrite), while the backup step of ctbpR-2.cpp and of ctbpR-4.cpp
silently replaces the existing backup file (their copies pass
overwrite_if_exists / overwrite_existing). -/
theorem claim6_amended (c b : Content) :
    R1.backupFile ⟨some c, some b⟩ = Except.error RunError.fsError
    ∧ R3.backupFile ⟨some c, some b⟩ = Except.error RunError.fsError
    ∧ R2.backup_file ⟨some c, some b⟩ = (⟨some c, some c⟩, true)
    ∧ R4.backup_file ⟨some c, some b⟩ = ⟨some c, some c⟩ := by
  refine ⟨rfl, rfl, rfl, rfl⟩

/-- C6 counterexample: with an existing storage file holding the text new
and an existing backup holding the text old, the ctbpR-2.cpp and
ctbpR-4.cpp backup steps replace the backup content with new and report no
error, refuting the claim that an existing backup name always makes the
backup operation fail. -/
theorem claim6_cex :
    R2.backup_file ⟨some (Content.raw "new"), some (Content.raw "old")⟩
      = (⟨some (Content.raw "new"), some (Content.raw "new")⟩, true)
    ∧ R4.backup_file ⟨some (Content.raw "new"), some (Content.raw "old")⟩
      = ⟨some (Content.raw "new"), some (Content.raw "new")⟩ := by
  constructor <;> rfl

/-- C6 witness: the amended theorem at two concrete file contents. -/
theorem claim6_witness :
    R1.backupFile ⟨some (Content.raw "cur"), some (Content.raw "bak")⟩
      = Except.error RunError.fsError :=
  (claim6_amended (Content.raw "cur") (Content.raw "bak")).1

/-! Claim C7: the locators on a Windows-like platform with APPDATA unset. -/

/-- C7 amended: with APPDATA unset on the Windows branch, only the
ctbpR-3.cpp locator fails with an exception; the ctbpR-2.cpp and
ctbpR-4.cpp locators return the empty path with no error, and the
ctbpR.cpp locator passes the NULL result of getenv to the fs::path
constructor, which is undefined behavior. -/
theorem claim7_amended (env : String → Option String) (h : env "APPDATA" = none) :
    R3.getStorageFile OS.windows env = LocResult.err "Failed to get APPDATA path."
    ∧ R2.get_storage_file OS.windows env = LocResult.ok ""
    ∧ R4.get_storage_file OS.windows env = LocResult.ok ""
    ∧ R1.getStorageFile OS.windows env = LocResult.ub := by
  refine ⟨?_, ?_, ?_, ?_⟩ <;>
    simp [R3.getStorageFile, R2.get_storage_file, R4.get_storage_file,
      R1.getStorageFile, h]

/-- C7 counterexample: with an empty environment, the ctbpR-2.cpp and
ctbpR-4.cpp locators return the empty path instead of failing, and the
ctbpR.cpp locator hits undefined behavior, refuting the claim that the
path locator fails with ConfigLocationError whenever APPDATA is unset. -/
theorem claim7_cex :
    R2.get_storage_file OS.windows (fun _ => none) = LocResult.ok ""
    ∧ R4.get_storage_file OS.windows (fun _ => none) = LocResult.ok ""
    ∧ R1.getStorageFile OS.windows (fun _ => none) = LocResult.ub := by
  refine ⟨rfl, rfl, rfl⟩

/-- C7 witness: the amended theorem at the empty environment. -/
theorem claim7_witness :
    R3.getStorageFile OS.windows (fun _ => none)
      = LocResult.err "Failed to get APPDATA path." :=
  (claim7_amended (fun _ => none) rfl).1

/-! Claim C9: the locators are deterministic, pure functions of the
platform and the two environment variables they read. -/

/-- C9: the ctbpR.cpp and ctbpR-3.cpp locators are pure functions; two
invocations with the same platform and the same values of APPDATA and HOME
return the same result, and no state is modified (the embedding is a
function with no state argument at all). -/
theorem claim9_locator_deterministic (os : OS) (e1 e2 : String → Option String)
    (ha : e1 "APPDATA" = e2 "APPDATA") (hh : e1 "HOME" = e2 "HOME") :
    R1.getStorageFile os e1 = R1.getStorageFile os e2
    ∧ R3.getStorageFile os e1 = R3.getStorageFile os e2 := by
  cases os <;> simp [R1.getStorageFile, R3.getStorageFile, ha, hh]

/-- C9 witness: two distinct environments agreeing on APPDATA and HOME
drive the ctbpR.cpp locator to the same path. -/
theorem claim9_witness :
    R1.getStorageFile OS.linux (envHome "/home/u")
      = R1.getStorageFile OS.linux
          (fun n => if n = "HOME" then some "/home/u" else
            if n = "USER" then some "u" else none) :=
  (claim9_locator_deterministic OS.linux (envHome "/home/u")
    (fun n => if n = "HOME" then some "/home/u" else
      if n = "USER" then some "u" else none) (by rfl) (by rfl)).1

/-! Claim C4: behavior when persisting the updated document fails, for
runs in which the original file existed and a backup was created. -/

/-- C4 amended: when opening the storage file for writing fails after a
backup was created, ctbpR.cpp attempts the restore, but the restoring
copy_file itself fails because the destination file still exists, so a
filesystem error rather than the WriteError is surfaced with exit status
1, the file keeping its pre-run content; ctbpR-4.cpp surfaces the write
error with exit status 1 and makes no restore attempt, the file again
keeping its pre-run content; ctbpR-2.cpp and ctbpR-3.cpp neither detect
nor report the failed open and exit 0 reporting success, the file keeping
its pre-run content.  A stream failure after a successful open is
undetected in every one of the four variants and leaves the partially
written text on disk together with a success exit.  The ctbpR.cpp parts
assume the mutation does not throw (the telemetry value of the prior
document is absent, null or an object) and the ctbpR-2.cpp parts assume
the three data.value calls return (each identifier value of the prior
document is absent or a string). -/
theorem claim4_amended (h s : String) (doc doc2 : Obj) (ids : String × String × String)
    (draws : Nat → Nat)
    (hm : R1.mutate doc draws = some doc2)
    (ho : R2.originalIds doc = Except.ok ids) :
    R1.mainRun OS.linux (envHome h) ⟨some (Content.json doc), none⟩
        ⟨draws, true, WriteOutcome.openFail⟩
      = RunOut.done (fail1 ⟨some (Content.json doc), some (Content.json doc)⟩
          RunError.fsError)
    ∧ R4.mainRun OS.linux (envHome h) ⟨some (Content.json doc), none⟩
        ⟨draws, true, WriteOutcome.openFail⟩
      = RunOut.done (fail1 ⟨some (Content.json doc), some (Content.json doc)⟩
          (RunError.cursorReset "Failed to open storage file for writing"))
    ∧ R3.mainRun OS.linux (envHome h) ⟨some (Content.json doc), none⟩
        ⟨draws, true, WriteOutcome.openFail⟩
      = RunOut.done (success ⟨some (Content.json doc), some (Content.json doc)⟩ false)
    ∧ R2.mainRun OS.linux (envHome h) ⟨some (Content.json doc), none⟩
        ⟨draws, true, WriteOutcome.openFail⟩
      = RunOut.done (success ⟨some (Content.json doc), some (Content.json doc)⟩ false)
    ∧ R1.mainRun OS.linux (envHome h) ⟨some (Content.json doc), none⟩
        ⟨draws, true, WriteOutcome.midFail s⟩
      = RunOut.done (success ⟨some (Content.raw s), some (Content.json doc)⟩ false)
    ∧ R2.mainRun OS.linux (envHome h) ⟨some (Content.json doc), none⟩
        ⟨draws, true, WriteOutcome.midFail s⟩
      = RunOut.done (success ⟨some (Content.raw s), some (Content.json doc)⟩ false)
    ∧ R3.mainRun OS.linux (envHome h) ⟨some (Content.json doc), none⟩
        ⟨draws, true, WriteOutcome.midFail s⟩
      = RunOut.done (success ⟨some (Content.raw s), some (Content.json doc)⟩ false)
    ∧ R4.mainRun OS.linux (envHome h) ⟨some (Content.json doc), none⟩
        ⟨draws, true, WriteOutcome.midFail s⟩
      = RunOut.done (success ⟨some (Content.raw s), some (Content.json doc)⟩ false) := by
  refine ⟨?_, rfl, rfl, ?_, ?_, ?_, rfl, rfl⟩
  · simp only [R1.mainRun, R1.getStorageFile, envHome, R1.backupFile, copyNoClobber,
      R1.loadDoc, if_true, hm]
  · simp only [R2.mainRun, R2.get_storage_file, envHome, R2.backup_file, R2.loadDoc,
      if_true, ho]
  · simp only [R1.mainRun, R1.getStorageFile, envHome, R1.backupFile, copyNoClobber,
      R1.loadDoc, if_true, hm]
  · simp only [R2.mainRun, R2.get_storage_file, envHome, R2.backup_file, R2.loadDoc,
      if_true, ho]

/-- C4 counterexample: a concrete ctbpR.cpp run on an existing (empty
object) file in which the backup is created and the stream write fails
after a successful open leaves a partially written file on disk and exits
0 with no error and no restore, and a concrete ctbpR-4.cpp run in which
the write open fails surfaces the error without restoring from the
backup; both refute the claim that a failed persist always restores the
original from the backup before surfacing WriteError. -/
theorem claim4_cex :
    R1.mainRun OS.linux (envHome "/h") ⟨some (Content.json []), none⟩
        ⟨(fun _ => 0), true, WriteOutcome.midFail "partia"⟩
      = RunOut.done (success ⟨some (Content.raw "partia"), some (Content.json [])⟩ false)
    ∧ R4.mainRun OS.linux (envHome "/h") ⟨some (Content.json []), none⟩
        ⟨(fun _ => 0), true, WriteOutcome.openFail⟩
      = RunOut.done (fail1 ⟨some (Content.json []), some (Content.json [])⟩
          (RunError.cursorReset "Failed to open storage file for writing")) := by
  constructor <;> rfl

/-- C4 witness: the amended theorem on the empty document, the mutation
result being obtained from its own evaluation and the three data.value
calls returning the default. -/
theorem claim4_witness :
    R1.mainRun OS.linux (envHome "/w") ⟨some (Content.json []), none⟩
        ⟨(fun _ => 1), true, WriteOutcome.openFail⟩
      = RunOut.done (fail1 ⟨some (Content.json []), some (Content.json [])⟩
          RunError.fsError) :=
  (claim4_amended "/w" "x" [] ((R1.mutate [] (fun _ => 1)).get (by rfl))
    ("Not set", "Not set", "Not set") (fun _ => 1)
    (Option.some_get (by rfl)).symm rfl).1

/-! Claim C5: behavior on a missing or corrupt storage file. -/

/-- C5 amended: when the storage file is missing, ctbpR.cpp, ctbpR-3.cpp
and ctbpR-4.cpp proceed with the empty document and complete successfully,
writing the three identifier fields; ctbpR-2.cpp aborts the missing-file
run before any assignment, because lines 102-104 call data.value on the
still-null document, which throws a type error that is reported on
standard error while the process exits 0 having written nothing.  When the
file exists but holds invalid JSON (and is readable, with no pre-existing
backup at the derived name), only ctbpR-3.cpp prints the warning, proceeds
with the empty document and completes successfully; ctbpR.cpp and
ctbpR-4.cpp abort with the parse error and exit status 1, writing nothing;
ctbpR-2.cpp reports the parse error but exits with status 0, also writing
nothing. -/
theorem claim5_amended (h s : String) (draws : Nat → Nat) :
    R3.mainRun OS.linux (envHome h) ⟨some (Content.raw s), none⟩
        ⟨draws, true, WriteOutcome.ok⟩
      = RunOut.done (success ⟨some (Content.json (R3.newDoc [] draws)),
          some (Content.raw s)⟩ true)
    ∧ R1.mainRun OS.linux (envHome h) ⟨some (Content.raw s), none⟩
        ⟨draws, true, WriteOutcome.ok⟩
      = RunOut.done (fail1 ⟨some (Content.raw s), some (Content.raw s)⟩
          RunError.parseError)
    ∧ R2.mainRun OS.linux (envHome h) ⟨some (Content.raw s), none⟩
        ⟨draws, true, WriteOutcome.ok⟩
      = RunOut.done (fail0 ⟨some (Content.raw s), some (Content.raw s)⟩
          RunError.parseError)
    ∧ R4.mainRun OS.linux (envHome h) ⟨some (Content.raw s), none⟩
        ⟨draws, true, WriteOutcome.ok⟩
      = RunOut.done (fail1 ⟨some (Content.raw s), some (Content.raw s)⟩
          RunError.parseError)
    ∧ R1.mainRun OS.linux (envHome h) ⟨none, none⟩ ⟨draws, true, WriteOutcome.ok⟩
      = RunOut.done (success ⟨(R1.mutate [] draws).map Content.json, none⟩ false)
    ∧ R2.mainRun OS.linux (envHome h) ⟨none, none⟩ ⟨draws, true, WriteOutcome.ok⟩
      = RunOut.done (fail0 ⟨none, none⟩ RunError.typeError)
    ∧ R3.mainRun OS.linux (envHome h) ⟨none, none⟩ ⟨draws, true, WriteOutcome.ok⟩
      = RunOut.done (success ⟨some (Content.json (R3.newDoc [] draws)), none⟩ false)
    ∧ R4.mainRun OS.linux (envHome h) ⟨none, none⟩ ⟨draws, true, WriteOutcome.ok⟩
      = RunOut.done (success ⟨some (Content.json (R4.newDoc [] draws)), none⟩ false)
    ∧ lookupKey (R3.newDoc [] draws) "telemetry.machineId"
      = some (Json.str (R3.newHex1 draws))
    ∧ lookupKey (R3.newDoc [] draws) "telemetry.devDeviceId"
      = some (Json.str (R3.newUuid draws)) := by
  refine ⟨rfl, rfl, rfl, rfl, rfl, rfl, rfl, rfl, rfl, rfl⟩

/-- C5 counterexample: a concrete ctbpR.cpp run on a file holding the
invalid JSON text not-json aborts with the parse error, exit status 1, no
warning, nothing written, refuting the claim that a corrupt prior file
never fails the run; and a concrete ctbpR-2.cpp run on a missing file
aborts with the type error raised by data.value on the null document,
writing nothing, refuting the claim that a missing-file run completes
successfully writing the reset identifier fields. -/
theorem claim5_cex :
    R1.mainRun OS.linux (envHome "/h") ⟨some (Content.raw "not-json"), none⟩
        ⟨(fun _ => 0), true, WriteOutcome.ok⟩
      = RunOut.done (fail1 ⟨some (Content.raw "not-json"), some (Content.raw "not-json")⟩
          RunError.parseError)
    ∧ (fail1 ⟨some (Content.raw "not-json"), some (Content.raw "not-json")⟩
        RunError.parseError).exit = 1
    ∧ (fail1 ⟨some (Content.raw "not-json"), some (Content.raw "not-json")⟩
        RunError.parseError).warned = false
    ∧ (fail1 ⟨some (Content.raw "not-json"), some (Content.raw "not-json")⟩
        RunError.parseError).emittedIds = false
    ∧ R2.mainRun OS.linux (envHome "/h") ⟨none, none⟩
        ⟨(fun _ => 0), true, WriteOutcome.ok⟩
      = RunOut.done (fail0 ⟨none, none⟩ RunError.typeError)
    ∧ (fail0 (⟨none, none⟩ : FS) RunError.typeError).emittedIds = false
    ∧ (fail0 (⟨none, none⟩ : FS) RunError.typeError).errOut = true := by
  refine ⟨rfl, rfl, rfl, rfl, rfl, rfl, rfl⟩

/-- C5 witness: the amended theorem at concrete home path, corrupt text
and constant draw stream 2. -/
theorem claim5_witness :
    R3.mainRun OS.linux (envHome "/h") ⟨some (Content.raw "bad"), none⟩
        ⟨(fun _ => 2), true, WriteOutcome.ok⟩
      = RunOut.done (success ⟨some (Content.json (R3.newDoc [] (fun _ => 2))),
          some (Content.raw "bad")⟩ true) :=
  (claim5_amended "/h" "bad" (fun _ => 2)).1

/-! Claim C10: silent empty-document fallback when the storage file exists
but opening it for reading fails, in ctbpR.cpp and ctbpR-4.cpp. -/

/-- C10: in ctbpR.cpp and ctbpR-4.cpp, when the storage file exists but
the read open fails, the run proceeds silently with the empty document
(no warning, no error), completes with exit status 0, and the write
replaces the previous content with a document holding only the freshly
generated identifier fields: nested under telemetry for ctbpR.cpp, the
three dotted keys for ctbpR-4.cpp. -/
theorem claim10_silent_empty_read (h : String) (c0 : Content) (draws : Nat → Nat) :
    R1.mainRun OS.linux (envHome h) ⟨some c0, none⟩ ⟨draws, false, WriteOutcome.ok⟩
      = RunOut.done (success ⟨(R1.mutate [] draws).map Content.json, some c0⟩ false)
    ∧ R4.mainRun OS.linux (envHome h) ⟨some c0, none⟩ ⟨draws, false, WriteOutcome.ok⟩
      = RunOut.done (success ⟨some (Content.json (R4.newDoc [] draws)), some c0⟩ false)
    ∧ R1.mutate [] draws
      = some [("telemetry", Json.obj [("machineId", Json.str (R1.newHex1 draws)),
          ("macMachineId", Json.str (R1.newHex2 draws)),
          ("devDeviceId", Json.str (R1.newUuid draws))])]
    ∧ (R4.newDoc [] draws).map Prod.fst
      = ["telemetry.machineId", "telemetry.macMachineId", "telemetry.devDeviceId"] := by
  refine ⟨rfl, rfl, rfl, rfl⟩

/-- C10 witness: the theorem at a concrete unreadable file content and
constant draw stream 0. -/
theorem claim10_witness :
    R1.mainRun OS.linux (envHome "/h") ⟨some (Content.raw "locked"), none⟩
        ⟨(fun _ => 0), false, WriteOutcome.ok⟩
      = RunOut.done (success ⟨(R1.mutate [] (fun _ => 0)).map Content.json,
          some (Content.raw "locked")⟩ false) :=
  (claim10_silent_empty_read "/h" (Content.raw "locked") (fun _ => 0)).1

/-! Claim C8: exit status and error reporting of the four entry points. -/

/-- C8 amended: in ctbpR.cpp and ctbpR-4.cpp every run that reports an
error exits with status 1 after writing the message to standard error, and
every run that reports no error exits with status 0 after emitting the new
identifiers; in ctbpR-2.cpp and ctbpR-3.cpp the error message of a failed
run still goes to standard error, but the exception is swallowed inside
the reset function, so the process exits with status 0 on every
terminating run, fatal errors included. -/
theorem claim8_amended (os : OS) (env : String → Option String) (fs0 : FS) (o : Oracle) :
    (∀ r, R2.mainRun os env fs0 o = RunOut.done r →
        r.exit = 0
        ∧ (r.err.isSome → r.errOut = true ∧ r.emittedIds = false)
        ∧ (r.err = none → r.errOut = false ∧ r.emittedIds = true))
    ∧ (∀ r, R3.mainRun os env fs0 o = RunOut.done r →
        r.exit = 0
        ∧ (r.err.isSome → r.errOut = true ∧ r.emittedIds = false)
        ∧ (r.err = none → r.errOut = false ∧ r.emittedIds = true))
    ∧ (∀ r, R1.mainRun os env fs0 o = RunOut.done r →
        (r.err.isSome → r.exit = 1 ∧ r.errOut = true ∧ r.emittedIds = false)
        ∧ (r.err = none → r.exit = 0 ∧ r.errOut = false ∧ r.emittedIds = true))
    ∧ (∀ r, R4.mainRun os env fs0 o = RunOut.done r →
        (r.err.isSome → r.exit = 1 ∧ r.errOut = true ∧ r.emittedIds = false)
        ∧ (r.err = none → r.exit = 0 ∧ r.errOut = false ∧ r.emittedIds = true)) := by
  refine ⟨?_, ?_, ?_, ?_⟩
  · intro r hr
    unfold R2.mainRun at hr
    repeat' split at hr
    all_goals try (exact RunOut.noConfusion hr)
    all_goals try (injection hr with h2)
    all_goals try subst h2
    all_goals simp [fail0, success]
  · intro r hr
    unfold R3.mainRun at hr
    repeat' split at hr
    all_goals try (exact RunOut.noConfusion hr)
    all_goals try (injection hr with h2)
    all_goals try subst h2
    all_goals simp [fail0, success]
  · intro r hr
    unfold R1.mainRun at hr
    repeat' split at hr
    all_goals try (exact RunOut.noConfusion hr)
    all_goals try (injection hr with h2)
    all_goals try subst h2
    all_goals simp [fail1, success]
  · intro r hr
    unfold R4.mainRun at hr
    repeat' split at hr
    all_goals try (exact RunOut.noConfusion hr)
    all_goals try (injection hr with h2)
    all_goals try subst h2
    all_goals simp [fail1, success]

/-- C8 counterexample: a concrete ctbpR-2.cpp run on an unsupported
platform reports the fatal unsupported-platform error on standard error
yet exits with status 0, refuting the claim that every fatal error yields
a non-zero exit status. -/
theorem claim8_cex :
    R2.mainRun OS.other (fun _ => none) ⟨none, none⟩ ⟨(fun _ => 0), true, WriteOutcome.ok⟩
      = RunOut.done (fail0 ⟨none, none⟩
          (RunError.cursorReset "Unsupported operating system: Unknown"))
    ∧ (fail0 (⟨none, none⟩ : FS)
        (RunError.cursorReset "Unsupported operating system: Unknown")).errOut = true
    ∧ (fail0 (⟨none, none⟩ : FS)
        (RunError.cursorReset "Unsupported operating system: Unknown")).exit = 0 := by
  refine ⟨rfl, rfl, rfl⟩

/-- C8 witness: the amended theorem applied to the concrete ctbpR-3.cpp
run on an unsupported platform, whose fatal error exits 0 after writing
the message to standard error. -/
theorem claim8_witness :
    (fail0 (⟨none, none⟩ : FS)
      (RunError.cursorReset "Unsupported operating system")).exit = 0
    ∧ (fail0 (⟨none, none⟩ : FS)
      (RunError.cursorReset "Unsupported operating system")).errOut = true :=
  ⟨((claim8_amended OS.other (fun _ => none) ⟨none, none⟩
      ⟨(fun _ => 0), true, WriteOutcome.ok⟩).2.1
      (fail0 ⟨none, none⟩ (RunError.cursorReset "Unsupported operating system")) rfl).1,
   (((claim8_amended OS.other (fun _ => none) ⟨none, none⟩
      ⟨(fun _ => 0), true, WriteOutcome.ok⟩).2.1
      (fail0 ⟨none, none⟩ (RunError.cursorReset "Unsupported operating system")) rfl).2.1
      (by rfl)).1⟩
